import Mathlib

/-!
Verification development for the pyside-settings-manager repository.

This file gives a shallow embedding of `src/pyside_settings_manager/settings.py`:
the widget data model, the backing `QSettings` store, the built-in per-widget-type
handlers, the handler registry with MRO-based resolution (`_get_handler`), the
recursive tree walker (`_process_widget_and_recurse`), the touched-state machine
(`mark_touched` / `mark_untouched` / `_on_widget_changed`), and the facade
operations (`save_custom_data`, `load_from_file`, `has_unsaved_changes`).

Modelling conventions:
- Python exceptions raised by handler operations are modelled with `Except Unit`.
- `QSettings` is an association list of string keys to typed variant values with a
  status flag; `beginGroup(k)` followed by `setValue(name, v)` is modelled as a
  single write to the key `k ++ "/" ++ name`; `sync()` is the identity on data.
- Widget identity (used by the skip set and the connected-signals table) is a
  natural-number id carried by each widget node.
- A widget's Python runtime type is the pair of its exact class and its remaining
  method resolution order (`type(w).__mro__[1:]`), carried as node data.
- Qt setters that clamp (spin boxes, sliders) clamp; `setCurrentIndex` is modelled
  as plain assignment because every call site in the source guards the argument to
  be in range; `setCurrentText` is modelled as updating the edit text only.
- `QMainWindow.centralWidget()` is a dedicated optional child, separate from the
  direct-children list, matching the walker's special case.
-/

namespace PSM

/-- Status indicator of a `QSettings` store (`QSettings.Status`). -/
inductive SettingsStatus : Type where
  | noError : SettingsStatus
  | accessError : SettingsStatus
  | formatError : SettingsStatus
deriving DecidableEq, Repr

/-- Typed values storable in the settings store (the `QVariant` payloads the
    handlers actually use: bool, int, float, str, and `QByteArray`). -/
inductive QVariant : Type where
  | vBool (b : Bool) : QVariant
  | vInt (n : Int) : QVariant
  | vFloat (q : Rat) : QVariant
  | vStr (t : String) : QVariant
  | vBytes (bs : List Nat) : QVariant
deriving DecidableEq, Repr

/-- A `QSettings` store: key/value data plus a status flag. -/
structure Settings : Type where
  data : List (String × QVariant) := []
  status : SettingsStatus := SettingsStatus.noError
deriving DecidableEq, Repr

/-- Look up a key in the store. -/
def Settings.find (s : Settings) (k : String) : Option QVariant :=
  (s.data.find? (fun p => p.1 == k)).map (fun p => p.2)

/-- Model of `QSettings.setValue`: overwrite an existing key in place or append. -/
def Settings.setValue (s : Settings) (k : String) (v : QVariant) : Settings :=
  if s.data.any (fun p => p.1 == k) then
    { s with data := s.data.map (fun p => if p.1 == k then (k, v) else p) }
  else
    { s with data := s.data ++ [(k, v)] }

/-- Model of `QSettings.contains`. -/
def Settings.contains (s : Settings) (k : String) : Bool :=
  (s.find k).isSome

/-- Model of `settings.value(key, default, type=bool)`. -/
def Settings.valueBool (s : Settings) (k : String) (dflt : Bool) : Bool :=
  match s.find k with
  | some (QVariant.vBool b) => b
  | _ => dflt

/-- Model of `settings.value(key, default, type=int)`. -/
def Settings.valueInt (s : Settings) (k : String) (dflt : Int) : Int :=
  match s.find k with
  | some (QVariant.vInt n) => n
  | _ => dflt

/-- Model of `settings.value(key, default, type=float)`. -/
def Settings.valueFloat (s : Settings) (k : String) (dflt : Rat) : Rat :=
  match s.find k with
  | some (QVariant.vFloat q) => q
  | _ => dflt

/-- Model of `settings.value(key, default, type=str)`. -/
def Settings.valueStr (s : Settings) (k : String) (dflt : String) : String :=
  match s.find k with
  | some (QVariant.vStr t) => t
  | _ => dflt

/-- Model of `settings.value(key, type=QByteArray)`: `none` when the key is absent
    or holds a non-byte value (the `isinstance` guards in the source then fail). -/
def Settings.valueBytes (s : Settings) (k : String) : Option (List Nat) :=
  match s.find k with
  | some (QVariant.vBytes bs) => some bs
  | _ => none

/-- Model of `QSettings.sync`: flushing to the durable medium changes no data. -/
def Settings.sync (s : Settings) : Settings := s

/-- The absolute float comparison tolerance from the source (`FLOAT_TOLERANCE = 1e-6`). -/
def FLOAT_TOLERANCE : Rat := 1 / 1000000

/-- Python classes relevant to the manager: the Qt widget classes that appear in
    the default handler registry or in `isinstance` checks, plus arbitrary
    user-defined classes. -/
inductive WClass : Type where
  | QObject : WClass
  | QWidget : WClass
  | QMainWindow : WClass
  | QCheckBox : WClass
  | QLineEdit : WClass
  | QPushButton : WClass
  | QComboBox : WClass
  | QSpinBox : WClass
  | QDoubleSpinBox : WClass
  | QRadioButton : WClass
  | QTextEdit : WClass
  | QTabWidget : WClass
  | QGroupBox : WClass
  | QSlider : WClass
  | userClass (n : Nat) : WClass
deriving DecidableEq, Repr

/-- The mutable per-widget properties read and written by the built-in handlers.
    A single record is used for all widget kinds; each handler touches only the
    fields of its kind. -/
structure WState : Type where
  checked : Bool := false
  checkable : Bool := false
  text : String := ""
  plainText : String := ""
  currentText : String := ""
  value : Int := 0
  minimum : Int := 0
  maximum : Int := 0
  fvalue : Rat := 0
  fminimum : Rat := 0
  fmaximum : Rat := 0
  currentIndex : Int := 0
  count : Int := 0
  editable : Bool := false
  geometry : List Nat := []
  windowState : List Nat := []
deriving DecidableEq, Repr

/-- Model of `setChecked`. -/
def WState.setChecked (s : WState) (b : Bool) : WState := { s with checked := b }

/-- Model of `QLineEdit.setText`. -/
def WState.setText (s : WState) (t : String) : WState := { s with text := t }

/-- Model of `QTextEdit.setPlainText`. -/
def WState.setPlainText (s : WState) (t : String) : WState := { s with plainText := t }

/-- Model of `QComboBox.setCurrentText`: updates the edit text. -/
def WState.setCurrentText (s : WState) (t : String) : WState := { s with currentText := t }

/-- Model of `QSpinBox.setValue` / `QSlider.setValue`: Qt clamps to `[minimum, maximum]`. -/
def WState.setValue (s : WState) (v : Int) : WState :=
  { s with value := max s.minimum (min s.maximum v) }

/-- Model of `QDoubleSpinBox.setValue`: Qt clamps to `[minimum, maximum]`. -/
def WState.setValueF (s : WState) (v : Rat) : WState :=
  { s with fvalue := max s.fminimum (min s.fmaximum v) }

/-- Model of `setCurrentIndex` (combo boxes, tab widgets). Plain assignment: every
    call in the source is guarded so the argument is within `[0, count)`. -/
def WState.setCurrentIndex (s : WState) (i : Int) : WState := { s with currentIndex := i }

/-- Model of `QMainWindow.restoreGeometry`. -/
def WState.restoreGeometry (s : WState) (bs : List Nat) : WState := { s with geometry := bs }

/-- Model of `QMainWindow.restoreState`. -/
def WState.restoreState (s : WState) (bs : List Nat) : WState := { s with windowState := bs }

/-- A change-notification source (`SignalInstance`). `isSignalInstance` models the
    `isinstance(signal, SignalInstance)` check and `connectFails` models
    `signal.connect` raising. -/
structure QSignal : Type where
  sid : Nat
  isSignalInstance : Bool
  connectFails : Bool
deriving DecidableEq, Repr

mutual
/-- A widget tree node: identity, exact runtime class, remaining MRO
    (`type(w).__mro__[1:]`), declared object name, mutable state, optional central
    widget (meaningful for main windows), and direct children in declaration order. -/
inductive Widget : Type where
  | node (id : Nat) (cls : WClass) (ancestors : List WClass) (name : String)
      (state : WState) (central : WOption) (children : WList) : Widget

/-- Either no widget or one widget (the result of `centralWidget()`). -/
inductive WOption : Type where
  | none : WOption
  | some (w : Widget) : WOption

/-- A list of widgets (the result of `findChildren(..., FindDirectChildrenOnly)`). -/
inductive WList : Type where
  | nil : WList
  | cons (w : Widget) (ws : WList) : WList
end

/-- Identity of a widget. -/
def widgetId : Widget → Nat
  | Widget.node i _ _ _ _ _ _ => i

/-- Exact runtime class of a widget (`type(widget)`). -/
def wcls : Widget → WClass
  | Widget.node _ c _ _ _ _ _ => c

/-- Remaining method resolution order of the widget's class (`__mro__[1:]`),
    most-derived first. -/
def wancestors : Widget → List WClass
  | Widget.node _ _ anc _ _ _ _ => anc

/-- Declared object name of a widget (`objectName()`); `""` means undeclared. -/
def wname : Widget → String
  | Widget.node _ _ _ nm _ _ _ => nm

/-- Mutable state of a widget. -/
def wstateOf : Widget → WState
  | Widget.node _ _ _ _ ws _ _ => ws

/-- Central widget of a widget (`centralWidget()`), meaningful for main windows. -/
def wcentral : Widget → WOption
  | Widget.node _ _ _ _ _ central _ => central

/-- Direct children of a widget. -/
def wchildren : Widget → WList
  | Widget.node _ _ _ _ _ _ children => children

/-- Replace a widget's mutable state, keeping identity, type, name and children. -/
def setWState : Widget → WState → Widget
  | Widget.node i c anc nm _ central children, ws => Widget.node i c anc nm ws central children

/-- Replace a widget's central widget. -/
def setCentral : Widget → WOption → Widget
  | Widget.node i c anc nm ws _ children, central => Widget.node i c anc nm ws central children

/-- Replace a widget's direct-children list. -/
def setChildren : Widget → WList → Widget
  | Widget.node i c anc nm ws central _, children => Widget.node i c anc nm ws central children

/-- Model of `isinstance(w, C)`: `C` is the exact class or appears in the MRO. -/
def isInstanceOfB (w : Widget) (c : WClass) : Bool :=
  (wcls w == c) || (wancestors w).contains c

/-- A handler: the save/load/compare/signal-enumeration strategy for one widget
    type (the `SettingsHandler` protocol). Each operation may raise, modelled by
    `Except Unit`; `load` returns the widget's new mutable state. -/
structure Handler : Type where
  save : Widget → Settings → Except Unit Settings
  load : Widget → Settings → Except Unit WState
  compare : Widget → Settings → Except Unit Bool
  get_signals_to_monitor : Widget → Except Unit (List QSignal)

/-- Signal instance used by the checkbox handler (`stateChanged`). -/
def sigStateChanged : QSignal := ⟨0, true, false⟩

/-- Signal instance used by the line-edit and text-edit handlers (`textChanged`). -/
def sigTextChanged : QSignal := ⟨1, true, false⟩

/-- Signal instance used by the push-button and radio-button handlers (`toggled`). -/
def sigToggled : QSignal := ⟨2, true, false⟩

/-- Signal instance used by the combo-box handler (`currentIndexChanged`). -/
def sigCurrentIndexChanged : QSignal := ⟨3, true, false⟩

/-- Signal instance used by the combo-box handler (`currentTextChanged`). -/
def sigCurrentTextChanged : QSignal := ⟨4, true, false⟩

/-- Signal instance used by the spin-box, double-spin-box and slider handlers
    (`valueChanged`). -/
def sigValueChanged : QSignal := ⟨5, true, false⟩

/-- Signal instance used by the tab-widget handler (`currentChanged`). -/
def sigCurrentChanged : QSignal := ⟨6, true, false⟩

/-- Built-in handler for `QCheckBox`. -/
def DefaultCheckBoxHandler : Handler where
  save w s := Except.ok (s.setValue (wname w) (QVariant.vBool (wstateOf w).checked))
  load w s := Except.ok ((wstateOf w).setChecked (s.valueBool (wname w) (wstateOf w).checked))
  compare w s := Except.ok ((wstateOf w).checked != s.valueBool (wname w) (wstateOf w).checked)
  get_signals_to_monitor _ := Except.ok [sigStateChanged]

/-- Built-in handler for `QLineEdit`. -/
def DefaultLineEditHandler : Handler where
  save w s := Except.ok (s.setValue (wname w) (QVariant.vStr (wstateOf w).text))
  load w s := Except.ok ((wstateOf w).setText (s.valueStr (wname w) (wstateOf w).text))
  compare w s := Except.ok ((wstateOf w).text != s.valueStr (wname w) (wstateOf w).text)
  get_signals_to_monitor _ := Except.ok [sigTextChanged]

/-- Built-in handler for `QPushButton`: a no-op unless the button is checkable. -/
def DefaultPushButtonHandler : Handler where
  save w s :=
    Except.ok (if (wstateOf w).checkable
      then s.setValue (wname w) (QVariant.vBool (wstateOf w).checked) else s)
  load w s :=
    Except.ok (if (wstateOf w).checkable
      then (wstateOf w).setChecked (s.valueBool (wname w) (wstateOf w).checked)
      else wstateOf w)
  compare w s :=
    Except.ok (if !(wstateOf w).checkable then false
      else (wstateOf w).checked != s.valueBool (wname w) (wstateOf w).checked)
  get_signals_to_monitor w :=
    Except.ok (if (wstateOf w).checkable then [sigToggled] else [])

/-- Built-in handler for `QComboBox`: persists the index under `name/currentIndex`
    and, when editable, the text under `name/currentText`; an out-of-range stored
    index falls back to index 0 when the box is non-empty. -/
def DefaultComboBoxHandler : Handler where
  save w s :=
    let key := wname w
    let s1 := s.setValue (key ++ "/currentIndex") (QVariant.vInt (wstateOf w).currentIndex)
    Except.ok (if (wstateOf w).editable
      then s1.setValue (key ++ "/currentText") (QVariant.vStr (wstateOf w).currentText)
      else s1)
  load w s :=
    let key := wname w
    let index := s.valueInt (key ++ "/currentIndex") (wstateOf w).currentIndex
    let ws1 :=
      if 0 ≤ index ∧ index < (wstateOf w).count then (wstateOf w).setCurrentIndex index
      else if 0 < (wstateOf w).count then (wstateOf w).setCurrentIndex 0
      else wstateOf w
    Except.ok (if ws1.editable
      then ws1.setCurrentText (s.valueStr (key ++ "/currentText") ws1.currentText)
      else ws1)
  compare w s :=
    let key := wname w
    let changed := (wstateOf w).currentIndex !=
      s.valueInt (key ++ "/currentIndex") (wstateOf w).currentIndex
    Except.ok (if !changed && (wstateOf w).editable
      then (wstateOf w).currentText != s.valueStr (key ++ "/currentText") (wstateOf w).currentText
      else changed)
  get_signals_to_monitor w :=
    Except.ok (if (wstateOf w).editable
      then [sigCurrentIndexChanged, sigCurrentTextChanged]
      else [sigCurrentIndexChanged])

/-- Built-in handler for `QSpinBox`. -/
def DefaultSpinBoxHandler : Handler where
  save w s := Except.ok (s.setValue (wname w) (QVariant.vInt (wstateOf w).value))
  load w s := Except.ok ((wstateOf w).setValue (s.valueInt (wname w) (wstateOf w).value))
  compare w s := Except.ok ((wstateOf w).value != s.valueInt (wname w) (wstateOf w).value)
  get_signals_to_monitor _ := Except.ok [sigValueChanged]

/-- Built-in handler for `QDoubleSpinBox`: comparison uses the absolute tolerance. -/
def DefaultDoubleSpinBoxHandler : Handler where
  save w s := Except.ok (s.setValue (wname w) (QVariant.vFloat (wstateOf w).fvalue))
  load w s := Except.ok ((wstateOf w).setValueF (s.valueFloat (wname w) (wstateOf w).fvalue))
  compare w s :=
    Except.ok (decide
      (FLOAT_TOLERANCE < |(wstateOf w).fvalue - s.valueFloat (wname w) (wstateOf w).fvalue|))
  get_signals_to_monitor _ := Except.ok [sigValueChanged]

/-- Built-in handler for `QRadioButton`: load only applies a stored value; compare
    treats a checked-but-never-saved button as changed. -/
def DefaultRadioButtonHandler : Handler where
  save w s := Except.ok (s.setValue (wname w) (QVariant.vBool (wstateOf w).checked))
  load w s :=
    Except.ok (if s.contains (wname w)
      then (wstateOf w).setChecked (s.valueBool (wname w) (wstateOf w).checked)
      else wstateOf w)
  compare w s :=
    Except.ok (if s.contains (wname w)
      then (wstateOf w).checked != s.valueBool (wname w) false
      else (wstateOf w).checked)
  get_signals_to_monitor _ := Except.ok [sigToggled]

/-- Built-in handler for `QTextEdit`. -/
def DefaultTextEditHandler : Handler where
  save w s := Except.ok (s.setValue (wname w) (QVariant.vStr (wstateOf w).plainText))
  load w s := Except.ok ((wstateOf w).setPlainText (s.valueStr (wname w) (wstateOf w).plainText))
  compare w s := Except.ok ((wstateOf w).plainText != s.valueStr (wname w) (wstateOf w).plainText)
  get_signals_to_monitor _ := Except.ok [sigTextChanged]

/-- Built-in handler for `QTabWidget`: load applies the stored index only when it
    is within `[0, count)`; there is no fallback branch. -/
def DefaultTabWidgetHandler : Handler where
  save w s := Except.ok (s.setValue (wname w) (QVariant.vInt (wstateOf w).currentIndex))
  load w s :=
    let index := s.valueInt (wname w) (wstateOf w).currentIndex
    Except.ok (if 0 ≤ index ∧ index < (wstateOf w).count
      then (wstateOf w).setCurrentIndex index
      else wstateOf w)
  compare w s := Except.ok ((wstateOf w).currentIndex != s.valueInt (wname w) (wstateOf w).currentIndex)
  get_signals_to_monitor _ := Except.ok [sigCurrentChanged]

/-- Built-in handler for `QSlider`: an out-of-range stored value is replaced by the
    widget's current value (a no-op write). -/
def DefaultSliderHandler : Handler where
  save w s := Except.ok (s.setValue (wname w) (QVariant.vInt (wstateOf w).value))
  load w s :=
    let v := s.valueInt (wname w) (wstateOf w).value
    Except.ok (if (wstateOf w).minimum ≤ v ∧ v ≤ (wstateOf w).maximum
      then (wstateOf w).setValue v
      else (wstateOf w).setValue (wstateOf w).value)
  compare w s := Except.ok ((wstateOf w).value != s.valueInt (wname w) (wstateOf w).value)
  get_signals_to_monitor _ := Except.ok [sigValueChanged]

/-- Built-in handler for `QMainWindow`: persists geometry and window state under the
    group `objectName() or "MainWindow"`; comparison is skipped in offscreen mode
    (the `QT_QPA_PLATFORM == "offscreen"` environment check is the parameter). -/
def DefaultMainWindowHandler (offscreen : Bool) : Handler where
  save w s :=
    let key := if wname w == "" then "MainWindow" else wname w
    Except.ok ((s.setValue (key ++ "/geometry") (QVariant.vBytes (wstateOf w).geometry)).setValue
      (key ++ "/state") (QVariant.vBytes (wstateOf w).windowState))
  load w s :=
    let key := if wname w == "" then "MainWindow" else wname w
    let ws1 := match s.valueBytes (key ++ "/geometry") with
      | some bs => (wstateOf w).restoreGeometry bs
      | none => wstateOf w
    let ws2 := match s.valueBytes (key ++ "/state") with
      | some bs => ws1.restoreState bs
      | none => ws1
    Except.ok ws2
  compare w s :=
    if offscreen then Except.ok false
    else
      let key := if wname w == "" then "MainWindow" else wname w
      let geometryDiffers := s.valueBytes (key ++ "/geometry") != some (wstateOf w).geometry
      let stateDiffers := s.valueBytes (key ++ "/state") != some (wstateOf w).windowState
      Except.ok (geometryDiffers || stateDiffers)
  get_signals_to_monitor _ := Except.ok []

/-- The default handler registry built in `QtSettingsManager.__init__`, in source
    order. `offscreen` parameterises the main-window handler's environment check. -/
def defaultHandlers (offscreen : Bool) : List (WClass × Handler) :=
  [(WClass.QMainWindow, DefaultMainWindowHandler offscreen),
   (WClass.QCheckBox, DefaultCheckBoxHandler),
   (WClass.QLineEdit, DefaultLineEditHandler),
   (WClass.QPushButton, DefaultPushButtonHandler),
   (WClass.QComboBox, DefaultComboBoxHandler),
   (WClass.QSpinBox, DefaultSpinBoxHandler),
   (WClass.QDoubleSpinBox, DefaultDoubleSpinBoxHandler),
   (WClass.QRadioButton, DefaultRadioButtonHandler),
   (WClass.QTextEdit, DefaultTextEditHandler),
   (WClass.QTabWidget, DefaultTabWidgetHandler),
   (WClass.QSlider, DefaultSliderHandler)]

/-- The read-only traversal context of a `QtSettingsManager`: the handler registry
    `_handlers` and the skip set `_skipped_widgets` (widget ids). -/
structure MConfig : Type where
  handlers : List (WClass × Handler)
  skipped : List Nat

/-- Exact-type lookup in the handler registry (`widget_class in self._handlers`). -/
def handlersGet (hs : List (WClass × Handler)) (c : WClass) : Option Handler :=
  (hs.find? (fun p => p.1 == c)).map (fun p => p.2)

/-- Walk of the ancestor chain in `_get_handler`: the first MRO class with a
    registered handler. -/
def firstAncestorHandler (hs : List (WClass × Handler)) : List WClass → Option Handler
  | [] => none
  | c :: cs =>
    match handlersGet hs c with
    | some h => some h
    | none => firstAncestorHandler hs cs

/-- Model of `_get_handler`: exact runtime type first, then `__mro__[1:]` in order. -/
def getHandler (hs : List (WClass × Handler)) (w : Widget) : Option Handler :=
  match handlersGet hs (wcls w) with
  | some h => some h
  | none => firstAncestorHandler hs (wancestors w)

/-- Model of `_should_skip_widget`: no declared name, or membership in the skip set. -/
def shouldSkipWidget (conf : MConfig) (w : Widget) : Bool :=
  (wname w == "") || conf.skipped.contains (widgetId w)

/-- Model of `is_known_container` in `_process_widget_and_recurse`:
    `isinstance(parent, (QMainWindow, QGroupBox))`. -/
def isKnownContainer (w : Widget) : Bool :=
  isInstanceOfB w WClass.QMainWindow || isInstanceOfB w WClass.QGroupBox

/-- Model of `handler_to_use = exact_handler or self._get_handler(parent)`. The
    `or` re-runs `_get_handler`, which repeats the exact lookup before the
    ancestor walk, so this equals `_get_handler` itself. -/
def resolvedHandler (conf : MConfig) (w : Widget) : Option Handler :=
  match handlersGet conf.handlers (wcls w) with
  | some h => some h
  | none => getHandler conf.handlers w

/-- The operation parameter of `_process_widget_and_recurse`. -/
inductive Op : Type where
  | save : Op
  | load : Op
  | connect : Op
  | compare : Op
  | collect : Op
deriving DecidableEq, Repr

/-- The mutable data threaded through one traversal: the settings argument
    (`None` for connect/collect), the `_connected_signals` table (widget id to
    connected signal ids), and the `managed_list` accumulator (`None` except for
    collect). -/
structure WalkState : Type where
  settings : Option Settings := none
  connected : List (Nat × List Nat) := []
  managed : Option (List Nat) := none
deriving DecidableEq, Repr

/-- Model of `_connect_widget_signals`: no-op when already connected or skipped;
    otherwise enumerate the handler's signals (exceptions caught), keep those that
    pass the instance check and whose `connect` call succeeds, and record them
    when any survive. -/
def connectWidgetSignals (conf : MConfig) (w : Widget) (h : Handler)
    (connected : List (Nat × List Nat)) : List (Nat × List Nat) :=
  if connected.any (fun p => p.1 == widgetId w) then connected
  else if shouldSkipWidget conf w then connected
  else
    match h.get_signals_to_monitor w with
    | Except.error _ => connected
    | Except.ok sigs =>
      if sigs.isEmpty then connected
      else
        let connectedList := sigs.filter (fun sg => sg.isSignalInstance && !sg.connectFails)
        if connectedList.isEmpty then connected
        else connected ++ [(widgetId w, connectedList.map (fun sg => sg.sid))]

/-- The per-node operation dispatch of `_process_widget_and_recurse` (the body of
    its `try` block, lines 567-591): returns the widget's new state, the new
    traversal state, and the compare result (`true` also on a compare exception).
    Handler exceptions for save/load are caught and leave everything unchanged. -/
def applyOp (conf : MConfig) (op : Op) (h : Handler) (w : Widget) (st : WalkState) :
    WState × WalkState × Bool :=
  match op with
  | Op.save =>
    match st.settings with
    | some s =>
      match h.save w s with
      | Except.ok s1 => (wstateOf w, { st with settings := some s1 }, false)
      | Except.error _ => (wstateOf w, st, false)
    | none => (wstateOf w, st, false)
  | Op.load =>
    match st.settings with
    | some s =>
      match h.load w s with
      | Except.ok ws1 => (ws1, st, false)
      | Except.error _ => (wstateOf w, st, false)
    | none => (wstateOf w, st, false)
  | Op.connect =>
    (wstateOf w, { st with connected := connectWidgetSignals conf w h st.connected }, false)
  | Op.compare =>
    match st.settings with
    | some s =>
      match h.compare w s with
      | Except.ok b => (wstateOf w, st, b)
      | Except.error _ => (wstateOf w, st, true)
    | none => (wstateOf w, st, false)
  | Op.collect =>
    match st.managed with
    | some l => (wstateOf w, { st with managed := some (l ++ [widgetId w]) }, false)
    | none => (wstateOf w, st, false)

/-- The node step of `_process_widget_and_recurse`: resolve `handler_to_use` and
    apply the operation; without a handler nothing happens. -/
def processNode (conf : MConfig) (op : Op) (w : Widget) (st : WalkState) :
    WState × WalkState × Bool :=
  match resolvedHandler conf w with
  | some h => applyOp conf op h w st
  | none => (wstateOf w, st, false)

mutual
/-- Model of `_process_widget_and_recurse`: skip check, node operation with local
    exception handling, compare short-circuit, and the recursion decision
    (`is_known_container or exact_handler is None`), with the main-window
    central-widget special case. -/
def processWidgetAndRecurse (conf : MConfig) (op : Op) : Widget → WalkState → Widget × WalkState × Bool
  | Widget.node i c anc nm ws central children, st =>
    let w := Widget.node i c anc nm ws central children
    if shouldSkipWidget conf w then (w, st, false)
    else
      let t := processNode conf op w st
      if t.2.2 then (setWState w t.1, t.2.1, true)
      else if isKnownContainer w || (handlersGet conf.handlers (wcls w)).isNone then
        match central with
        | WOption.some cw =>
          if isInstanceOfB w WClass.QMainWindow then
            let r := processWidgetAndRecurse conf op cw t.2.1
            (Widget.node i c anc nm t.1 (WOption.some r.1) children, r.2.1, r.2.2)
          else
            let r := processChildren conf op children t.2.1
            (Widget.node i c anc nm t.1 central r.1, r.2.1, r.2.2)
        | WOption.none =>
          let r := processChildren conf op children t.2.1
          (Widget.node i c anc nm t.1 central r.1, r.2.1, r.2.2)
      else (setWState w t.1, t.2.1, false)

/-- The child loop of `_process_widget_and_recurse`: direct children in order,
    returning `true` immediately (remaining siblings unvisited) when a child
    reports a difference. -/
def processChildren (conf : MConfig) (op : Op) : WList → WalkState → WList × WalkState × Bool
  | WList.nil, st => (WList.nil, st, false)
  | WList.cons cw cws, st =>
    let r := processWidgetAndRecurse conf op cw st
    if r.2.2 then (WList.cons r.1 cws, r.2.1, true)
    else
      let r2 := processChildren conf op cws r.2.1
      (WList.cons r.1 r2.1, r2.2.1, r2.2.2)
end

/-- The child-recursion step of `_process_widget_and_recurse` (lines 596-611)
    restated standalone, for use in specification statements: given the node's
    post-operation state `ws1` and traversal state `st1`, recurse into the
    central widget (for a main window that has one) or into the direct children. -/
def recurseStep (conf : MConfig) (op : Op) (w : Widget) (ws1 : WState) (st1 : WalkState) :
    Widget × WalkState × Bool :=
  match wcentral w with
  | WOption.some cw =>
    if isInstanceOfB w WClass.QMainWindow then
      let r := processWidgetAndRecurse conf op cw st1
      (setCentral (setWState w ws1) (WOption.some r.1), r.2.1, r.2.2)
    else
      let r := processChildren conf op (wchildren w) st1
      (setChildren (setWState w ws1) r.1, r.2.1, r.2.2)
  | WOption.none =>
    let r := processChildren conf op (wchildren w) st1
    (setChildren (setWState w ws1) r.1, r.2.1, r.2.2)

/-- State of a `QtSettingsManager` instance: the default store, the touched flag,
    the log of `touched_changed` emissions, the connected-signals table, the skip
    set and the handler registry. -/
structure Manager : Type where
  settings : Settings
  touched : Bool
  emitted : List Bool
  connected : List (Nat × List Nat)
  skipped : List Nat
  handlers : List (WClass × Handler)

/-- Traversal context of a manager. -/
def mconfigOf (m : Manager) : MConfig :=
  { handlers := m.handlers, skipped := m.skipped }

/-- Model of `mark_touched`: transition to touched and emit `True`, only from the
    clean state. -/
def markTouchedM (m : Manager) : Manager :=
  if !m.touched then { m with touched := true, emitted := m.emitted ++ [true] } else m

/-- Model of `mark_untouched`: transition to clean and emit `False`, only from the
    touched state. -/
def markUntouchedM (m : Manager) : Manager :=
  if m.touched then { m with touched := false, emitted := m.emitted ++ [false] } else m

/-- Model of `_on_widget_changed`: a monitored signal fired; mark touched unless
    the sending widget is skipped or unnamed. -/
def onWidgetChanged (m : Manager) (sender : Widget) : Manager :=
  if !(shouldSkipWidget (mconfigOf m) sender) then markTouchedM m else m

/-- Model of `_disconnect_all_widget_signals`: the connected-signals table is
    emptied (each stored signal is disconnected, errors ignored). -/
def disconnectAllWidgetSignals (m : Manager) : Manager :=
  { m with connected := [] }

/-- Model of `_perform_load`: tear down all subscriptions, apply the load walk to
    the main window (signals blocked; the tree walk cannot raise in this model),
    rebuild subscriptions with the connect walk, and mark untouched. `mw` is the
    result of `_find_main_window()`. -/
def performLoad (settings : Settings) (m : Manager) (mw : WOption) : Manager × WOption :=
  let m1 := disconnectAllWidgetSignals m
  match mw with
  | WOption.some w =>
    let conf := mconfigOf m1
    let stL : WalkState := { settings := some settings, connected := m1.connected, managed := none }
    let rL := processWidgetAndRecurse conf Op.load w stL
    let stC : WalkState := { settings := none, connected := m1.connected, managed := none }
    let rC := processWidgetAndRecurse conf Op.connect rL.1 stC
    (markUntouchedM { m1 with connected := rC.2.1.connected }, WOption.some rC.1)
  | WOption.none => (markUntouchedM m1, WOption.none)

/-- Model of `load_from_file`: `fs` maps a path to the `QSettings` store the
    constructor `QSettings(filepath, IniFormat)` yields for it. On an error
    status: tear down subscriptions, mark untouched, and change nothing else. -/
def loadFromFile (fs : String → Settings) (filepath : String) (m : Manager) (mw : WOption) :
    Manager × WOption :=
  let fileSettings := fs filepath
  if fileSettings.status != SettingsStatus.noError then
    (markUntouchedM (disconnectAllWidgetSignals m), mw)
  else
    performLoad fileSettings m mw

/-- A payload passed to `save_custom_data`: `pickled` is `some bytes` when
    `pickle.dumps` succeeds and `none` when it raises. -/
structure Payload : Type where
  pickled : Option (List Nat)

/-- Model of `_save_custom_data_impl`: write the pickled bytes under
    `customData/key`; a pickling error is caught and nothing is written. -/
def saveCustomDataImpl (settings : Settings) (key : String) (data : Payload) : Settings :=
  match data.pickled with
  | some bs => settings.setValue ("customData/" ++ key) (QVariant.vBytes bs)
  | none => settings

/-- Model of `save_custom_data`: serialize into the default store, sync, and mark
    touched (unconditionally, also after a caught serialization failure). -/
def saveCustomData (m : Manager) (key : String) (data : Payload) : Manager :=
  markTouchedM { m with settings := (saveCustomDataImpl m.settings key data).sync }

/-- Source argument of `has_unsaved_changes`: a file path or an open store handle
    (`None` is modelled by `Option.none` at the call). -/
inductive CompareSource : Type where
  | file (filepath : String) : CompareSource
  | handle (s : Settings) : CompareSource

/-- The compare run of `has_unsaved_changes`: walk the main window with the
    compare operation against `s`. The final traversal state is threaded back
    into the manager (`isDefault` marks a comparison against the default store,
    whose settings object is the manager's own). -/
def compareAgainst (m : Manager) (mw : WOption) (s : Settings) (isDefault : Bool) :
    Manager × WOption × Bool :=
  match mw with
  | WOption.none => (m, WOption.none, false)
  | WOption.some w =>
    let st0 : WalkState := { settings := some s, connected := m.connected, managed := none }
    let r := processWidgetAndRecurse (mconfigOf m) Op.compare w st0
    let newSettings := if isDefault then r.2.1.settings.getD m.settings else m.settings
    let m1 := { m with connected := r.2.1.connected, settings := newSettings }
    (m1, WOption.some r.1, r.2.2)

/-- Model of `has_unsaved_changes`: compare against the default store, a transient
    store for a path (returning `false` when it has an error status), or a given
    handle; `false` when no main window is found. -/
def hasUnsavedChanges (fs : String → Settings) (m : Manager) (mw : WOption)
    (source : Option CompareSource) : Manager × WOption × Bool :=
  match source with
  | none => compareAgainst m mw m.settings true
  | some (CompareSource.file p) =>
    let s := fs p
    if s.status != SettingsStatus.noError then (m, mw, false)
    else compareAgainst m mw s false
  | some (CompareSource.handle s) => compareAgainst m mw s false

/-- A handler whose every operation raises, for exercising the walker's local
    exception handling. -/
def ThrowingHandler : Handler where
  save _ _ := Except.error ()
  load _ _ := Except.error ()
  compare _ _ := Except.error ()
  get_signals_to_monitor _ := Except.error ()

/-- Concrete fixture: a named, checked checkbox leaf. -/
def exLeafCheckBox : Widget :=
  Widget.node 3 WClass.QCheckBox [WClass.QWidget, WClass.QObject] "cb"
    { checked := true } WOption.none WList.nil

/-- Concrete fixture: an unnamed plain-widget container holding the named checkbox. -/
def exUnnamedContainer : Widget :=
  Widget.node 2 WClass.QWidget [WClass.QObject] "" {} WOption.none
    (WList.cons exLeafCheckBox WList.nil)

/-- Concrete fixture: a named root whose only child is the unnamed container. -/
def exRootC1 : Widget :=
  Widget.node 1 WClass.QWidget [WClass.QObject] "root" {} WOption.none
    (WList.cons exUnnamedContainer WList.nil)

/-- Concrete fixture: a named group box holding the named checkbox. -/
def exGroupBox : Widget :=
  Widget.node 5 WClass.QGroupBox [WClass.QWidget, WClass.QObject] "grp" {} WOption.none
    (WList.cons exLeafCheckBox WList.nil)

/-- Concrete fixture: an unnamed checkbox. -/
def exUnnamedCheckBox : Widget :=
  Widget.node 7 WClass.QCheckBox [WClass.QWidget, WClass.QObject] ""
    { checked := true } WOption.none WList.nil

/-- Concrete fixture: the traversal context of a fresh manager (default handlers,
    empty skip set). -/
def exConfDefault : MConfig := { handlers := defaultHandlers false, skipped := [] }

/-- Concrete fixture: the registry maps `QCheckBox` to the throwing handler. -/
def exConfThrowing : MConfig := { handlers := [(WClass.QCheckBox, ThrowingHandler)], skipped := [] }

/-- Concrete fixture: an empty, healthy settings store. -/
def exEmptySettings : Settings := {}

/-- Concrete fixture: traversal state carrying the empty store. -/
def exSaveSt : WalkState := { settings := some exEmptySettings, connected := [], managed := none }

/-- Concrete fixture: a three-tab tab widget currently on tab 1. -/
def exTabWidget : Widget :=
  Widget.node 10 WClass.QTabWidget [WClass.QWidget, WClass.QObject] "tabs"
    { currentIndex := 1, count := 3 } WOption.none WList.nil

/-- Concrete fixture: a store holding the out-of-range index 999 for `"tabs"`. -/
def exTabSettings : Settings := { data := [("tabs", QVariant.vInt 999)] }

/-- Concrete fixture: a three-item selector currently on index 1. -/
def exComboWidget : Widget :=
  Widget.node 11 WClass.QComboBox [WClass.QWidget, WClass.QObject] "sel"
    { currentIndex := 1, count := 3 } WOption.none WList.nil

/-- Concrete fixture: a store holding the out-of-range index 999 both under the
    combo-box key `"sel/currentIndex"` and under the plain key `"sel"`. -/
def exOutOfRangeSettings : Settings :=
  { data := [("sel/currentIndex", QVariant.vInt 999), ("sel", QVariant.vInt 999)] }

/-- Concrete fixture: a fresh, clean manager with the built-in handlers. -/
def exManagerClean : Manager :=
  { settings := {}, touched := false, emitted := [], connected := [], skipped := [],
    handlers := defaultHandlers false }

/-- Concrete fixture: a touched manager with one live subscription. -/
def exManagerTouched : Manager :=
  { settings := {}, touched := true, emitted := [true], connected := [(3, [0])], skipped := [],
    handlers := defaultHandlers false }

/-- Concrete fixture: a payload `pickle.dumps` rejects. -/
def exUnpicklablePayload : Payload := { pickled := none }

/-- Concrete fixture: a store with an error status. -/
def exBadStore : Settings := { data := [], status := SettingsStatus.accessError }

/-- Concrete fixture: a filesystem on which every path yields the bad store. -/
def exFsBad : String → Settings := fun _ => exBadStore

/-- Replacing a widget's state by its own state is the identity. -/
theorem setWState_self (w : Widget) : setWState w (wstateOf w) = w := by
  cases w with
  | node i c anc nm ws central children => rfl

/-- The walker returns immediately at a skipped or unnamed node: no operation is
    applied, no recursion happens, the node and the traversal state are unchanged. -/
theorem processW_of_skip (conf : MConfig) (op : Op) (w : Widget) (st : WalkState)
    (h : shouldSkipWidget conf w = true) :
    processWidgetAndRecurse conf op w st = (w, st, false) := by
  cases w with
  | node i c anc nm ws central children =>
    simp [processWidgetAndRecurse, h]

/-- The node step of a compare traversal changes neither the widget state nor the
    traversal state. -/
theorem processNode_compare_state (conf : MConfig) (w : Widget) (st : WalkState) :
    (processNode conf Op.compare w st).1 = wstateOf w ∧
    (processNode conf Op.compare w st).2.1 = st := by
  cases hres : resolvedHandler conf w with
  | none => simp [processNode, hres]
  | some h =>
    cases hs : st.settings with
    | none => simp [processNode, applyOp, hres, hs]
    | some s =>
      cases hc : h.compare w s with
      | ok b => simp [processNode, applyOp, hres, hs, hc]
      | error e => simp [processNode, applyOp, hres, hs, hc]

/-- When the node step reports a difference (or a compare exception), the walker
    returns true immediately, before the recursion decision. -/
theorem processW_result_true (conf : MConfig) (op : Op) (w : Widget) (st : WalkState)
    (h1 : shouldSkipWidget conf w = false)
    (h2 : (processNode conf op w st).2.2 = true) :
    processWidgetAndRecurse conf op w st
      = (setWState w (processNode conf op w st).1, (processNode conf op w st).2.1, true) := by
  cases w with
  | node i c anc nm ws central children =>
    simp [processWidgetAndRecurse, h1, h2]

/-- When the node step does not short-circuit, the walker continues with exactly
    the recursion decision `is_known_container or exact_handler is None`: it
    performs the child-recursion step when that holds and otherwise returns with
    the children unvisited. -/
theorem processW_step (conf : MConfig) (op : Op) (w : Widget) (st : WalkState)
    (h1 : shouldSkipWidget conf w = false)
    (h2 : (processNode conf op w st).2.2 = false) :
    processWidgetAndRecurse conf op w st =
      if isKnownContainer w || (handlersGet conf.handlers (wcls w)).isNone
      then recurseStep conf op w (processNode conf op w st).1 (processNode conf op w st).2.1
      else (setWState w (processNode conf op w st).1, (processNode conf op w st).2.1, false) := by
  cases w with
  | node i c anc nm ws central children =>
    cases central with
    | none =>
      simp [processWidgetAndRecurse, recurseStep, h1, h2, setWState, setChildren,
        wcentral, wchildren]
    | some cw =>
      cases hMW : isInstanceOfB (Widget.node i c anc nm ws (WOption.some cw) children)
          WClass.QMainWindow with
      | true =>
        simp [processWidgetAndRecurse, recurseStep, h1, h2, hMW, setWState, setCentral,
          wcentral]
      | false =>
        simp [processWidgetAndRecurse, recurseStep, h1, h2, hMW, setWState, setChildren,
          wcentral, wchildren]

mutual
/-- A compare traversal is read-only: it returns the tree and the traversal state
    unchanged. -/
theorem processW_compare_frame (conf : MConfig) (w : Widget) (st : WalkState) :
    (processWidgetAndRecurse conf Op.compare w st).1 = w ∧
    (processWidgetAndRecurse conf Op.compare w st).2.1 = st := by
  cases w with
  | node i c anc nm ws central children =>
    cases hskip : shouldSkipWidget conf (Widget.node i c anc nm ws central children) with
    | true =>
      rw [processW_of_skip conf Op.compare (Widget.node i c anc nm ws central children) st hskip]
      exact ⟨rfl, rfl⟩
    | false =>
      obtain ⟨hws, hst⟩ :=
        processNode_compare_state conf (Widget.node i c anc nm ws central children) st
      cases hr : (processNode conf Op.compare (Widget.node i c anc nm ws central children) st).2.2 with
      | true =>
        rw [processW_result_true conf Op.compare (Widget.node i c anc nm ws central children)
          st hskip hr, hws, hst, setWState_self]
        exact ⟨rfl, rfl⟩
      | false =>
        rw [processW_step conf Op.compare (Widget.node i c anc nm ws central children)
          st hskip hr, hws, hst, setWState_self]
        cases hC : (isKnownContainer (Widget.node i c anc nm ws central children) ||
            (handlersGet conf.handlers
              (wcls (Widget.node i c anc nm ws central children))).isNone) with
        | false => simp [hC]
        | true =>
          simp only [hC, if_true]
          cases central with
          | none =>
            obtain ⟨g1, g2⟩ := processL_compare_frame conf children st
            simp [recurseStep, wcentral, wchildren, setChildren, setWState_self, g1, g2]
          | some cw =>
            cases hMW : isInstanceOfB (Widget.node i c anc nm ws (WOption.some cw) children)
                WClass.QMainWindow with
            | true =>
              obtain ⟨f1, f2⟩ := processW_compare_frame conf cw st
              simp [recurseStep, wcentral, setCentral, setWState_self, hMW, f1, f2]
            | false =>
              obtain ⟨g1, g2⟩ := processL_compare_frame conf children st
              simp [recurseStep, wcentral, wchildren, setChildren, setWState_self, hMW, g1, g2]

/-- A compare traversal over a child list is read-only. -/
theorem processL_compare_frame (conf : MConfig) (l : WList) (st : WalkState) :
    (processChildren conf Op.compare l st).1 = l ∧
    (processChildren conf Op.compare l st).2.1 = st := by
  cases l with
  | nil => exact ⟨rfl, rfl⟩
  | cons cw cws =>
    obtain ⟨f1, f2⟩ := processW_compare_frame conf cw st
    obtain ⟨g1, g2⟩ := processL_compare_frame conf cws st
    cases hb : (processWidgetAndRecurse conf Op.compare cw st).2.2 with
    | true => simp [processChildren, f1, f2, hb]
    | false => simp [processChildren, f1, f2, g1, g2, hb]
end

/-- C1 (corrected): the claim asserts that the walker still evaluates recursion at a
    skipped or unnamed node, so that a named, non-skipped descendant of an unnamed
    container is still visited. In the code `_process_widget_and_recurse` returns
    immediately at such a node. Here a named root holds an unnamed container whose
    child is the named, non-skipped checkbox `"cb"`; a save traversal leaves the
    store untouched: no key for `"cb"` is written, so the descendant was not
    visited. -/
theorem c1_counterexample :
    wname exUnnamedContainer = "" ∧
    shouldSkipWidget exConfDefault exLeafCheckBox = false ∧
    wname exLeafCheckBox = "cb" ∧
    (processWidgetAndRecurse exConfDefault Op.save exRootC1 exSaveSt).2.1.settings
      = some exEmptySettings ∧
    Settings.contains
      (((processWidgetAndRecurse exConfDefault Op.save exRootC1 exSaveSt).2.1.settings).getD {})
      "cb" = false := by
  decide

/-- C1 (amended): if a visited node is in the skip set or has no declared object
    name, the walker performs neither the per-node operation nor any recursion:
    it returns immediately, leaving the node's whole subtree, the settings, the
    subscription table and the managed list unchanged and reporting no difference. -/
theorem c1_skipped_node_prunes_subtree (conf : MConfig) (op : Op) (w : Widget)
    (st : WalkState) (h : shouldSkipWidget conf w = true) :
    processWidgetAndRecurse conf op w st = (w, st, false) :=
  processW_of_skip conf op w st h

/-- Witness for C1: the unnamed container is skipped, and a save traversal rooted
    at it is the identity. -/
theorem c1_witness :
    shouldSkipWidget exConfDefault exUnnamedContainer = true ∧
    processWidgetAndRecurse exConfDefault Op.save exUnnamedContainer exSaveSt
      = (exUnnamedContainer, exSaveSt, false) :=
  ⟨by decide,
   c1_skipped_node_prunes_subtree exConfDefault Op.save exUnnamedContainer exSaveSt (by decide)⟩

/-- Helper: the ancestor walk of `_get_handler` is the first hit of the registry
    lookup along the list. -/
theorem firstAncestorHandler_eq_findSome (hs : List (WClass × Handler)) (l : List WClass) :
    firstAncestorHandler hs l = l.findSome? (fun c => handlersGet hs c) := by
  induction l with
  | nil => simp [firstAncestorHandler, List.findSome?]
  | cons c cs ih =>
    cases hc : handlersGet hs c with
    | none => simp [firstAncestorHandler, List.findSome?, hc, ih]
    | some h => simp [firstAncestorHandler, List.findSome?, hc]

/-- C7 (confirmed): `_get_handler` resolves the handler along the chain consisting
    of the exact runtime type followed by the ancestor chain in most-derived-first
    order, returning the first registered handler and none when no type in the
    chain is registered. -/
theorem c7_handler_resolution (hs : List (WClass × Handler)) (w : Widget) :
    getHandler hs w = (wcls w :: wancestors w).findSome? (fun c => handlersGet hs c) := by
  cases hc : handlersGet hs (wcls w) with
  | none => simp [getHandler, List.findSome?, hc, firstAncestorHandler_eq_findSome]
  | some h => simp [getHandler, List.findSome?, hc]

/-- C9 (confirmed): a widget with an empty declared object name is universally
    excluded. Every traversal operation (save, load, connect, compare, collect)
    returns immediately at it, leaving the store, the subscription table, the
    managed list and the widget untouched; `_connect_widget_signals` refuses to
    subscribe it; and a change notification from it never marks the state
    touched. All of this holds regardless of skip-set membership. -/
theorem c9_unnamed_widget_excluded (conf : MConfig) (op : Op) (w : Widget)
    (st : WalkState) (h : Handler) (conn : List (Nat × List Nat)) (m : Manager)
    (hname : wname w = "") :
    processWidgetAndRecurse conf op w st = (w, st, false) ∧
    connectWidgetSignals conf w h conn = conn ∧
    onWidgetChanged m w = m := by
  have hskip : ∀ cf : MConfig, shouldSkipWidget cf w = true := by
    intro cf
    simp [shouldSkipWidget, hname]
  refine ⟨processW_of_skip conf op w st (hskip conf), ?_, ?_⟩
  · cases hany : conn.any (fun p => p.1 == widgetId w) with
    | true => simp [connectWidgetSignals, hany]
    | false => simp [connectWidgetSignals, hany, hskip conf]
  · simp [onWidgetChanged, hskip (mconfigOf m)]

/-- C2 (confirmed): at a visited (non-skipped) node where the node operation does
    not short-circuit the compare, the walker performs the child-recursion step
    exactly when the node is a known transparent container (main window or group
    box) or no exact-runtime-type handler is registered; otherwise it returns with
    the children unvisited and the traversal state unchanged beyond the node
    operation itself. -/
theorem c2_recursion_decision (conf : MConfig) (op : Op) (w : Widget) (st : WalkState)
    (h1 : shouldSkipWidget conf w = false)
    (h2 : (processNode conf op w st).2.2 = false) :
    processWidgetAndRecurse conf op w st =
      if isKnownContainer w || (handlersGet conf.handlers (wcls w)).isNone
      then recurseStep conf op w (processNode conf op w st).1 (processNode conf op w st).2.1
      else (setWState w (processNode conf op w st).1, (processNode conf op w st).2.1, false) :=
  processW_step conf op w st h1 h2

/-- Witness for C2: a named group box (a transparent container without an exact
    handler) during a save traversal. -/
theorem c2_witness :
    shouldSkipWidget exConfDefault exGroupBox = false ∧
    (processNode exConfDefault Op.save exGroupBox exSaveSt).2.2 = false ∧
    processWidgetAndRecurse exConfDefault Op.save exGroupBox exSaveSt =
      (if isKnownContainer exGroupBox ||
          (handlersGet exConfDefault.handlers (wcls exGroupBox)).isNone
       then recurseStep exConfDefault Op.save exGroupBox
         (processNode exConfDefault Op.save exGroupBox exSaveSt).1
         (processNode exConfDefault Op.save exGroupBox exSaveSt).2.1
       else (setWState exGroupBox (processNode exConfDefault Op.save exGroupBox exSaveSt).1,
         (processNode exConfDefault Op.save exGroupBox exSaveSt).2.1, false)) :=
  ⟨by decide, by decide,
   c2_recursion_decision exConfDefault Op.save exGroupBox exSaveSt (by decide) (by decide)⟩

/-- C3 (corrected): the claim asserts that both index-based controls default to
    index 0 on an out-of-range stored index. The combo-box handler does; the
    tab-widget handler's load has no fallback branch and leaves the current index
    unchanged. Here a three-tab widget on tab 1 with stored index 999 still shows
    index 1 (not 0) after load. -/
theorem c3_counterexample :
    0 < (wstateOf exTabWidget).count ∧
    ¬(0 ≤ Settings.valueInt exTabSettings (wname exTabWidget) (wstateOf exTabWidget).currentIndex ∧
      Settings.valueInt exTabSettings (wname exTabWidget) (wstateOf exTabWidget).currentIndex
        < (wstateOf exTabWidget).count) ∧
    DefaultTabWidgetHandler.load exTabWidget exTabSettings = Except.ok (wstateOf exTabWidget) ∧
    (wstateOf exTabWidget).currentIndex = 1 ∧ (wstateOf exTabWidget).currentIndex ≠ 0 :=
  ⟨by decide, by decide, rfl, rfl, by decide⟩

/-- C3 (amended): loading an out-of-range stored index never throws. For a combo
    box with a non-zero item count the index defaults to 0 (a valid index); for a
    tab widget the load is a no-op, leaving the current index at its pre-load
    value instead of 0. -/
theorem c3_out_of_range_index_load (w : Widget) (s : Settings)
    (hcount : 0 < (wstateOf w).count)
    (hcombo : ¬(0 ≤ s.valueInt (wname w ++ "/currentIndex") (wstateOf w).currentIndex ∧
      s.valueInt (wname w ++ "/currentIndex") (wstateOf w).currentIndex < (wstateOf w).count))
    (htab : ¬(0 ≤ s.valueInt (wname w) (wstateOf w).currentIndex ∧
      s.valueInt (wname w) (wstateOf w).currentIndex < (wstateOf w).count)) :
    (∃ ws1 : WState, DefaultComboBoxHandler.load w s = Except.ok ws1 ∧
      ws1.currentIndex = 0 ∧ 0 ≤ ws1.currentIndex ∧ ws1.currentIndex < ws1.count) ∧
    DefaultTabWidgetHandler.load w s = Except.ok (wstateOf w) := by
  constructor
  · simp only [DefaultComboBoxHandler]
    rw [if_neg hcombo, if_pos hcount]
    by_cases he : ((wstateOf w).setCurrentIndex 0).editable
    · rw [if_pos he]
      exact ⟨_, rfl, rfl, by simp [WState.setCurrentText, WState.setCurrentIndex],
        by simpa [WState.setCurrentText, WState.setCurrentIndex] using hcount⟩
    · rw [if_neg he]
      exact ⟨_, rfl, rfl, by simp [WState.setCurrentIndex],
        by simpa [WState.setCurrentIndex] using hcount⟩
  · simp only [DefaultTabWidgetHandler]
    rw [if_neg htab]

/-- Witness for C3: the stored index 999 for a three-item selector currently on
    index 1. -/
theorem c3_witness :
    (0 < (wstateOf exComboWidget).count ∧
     ¬(0 ≤ Settings.valueInt exOutOfRangeSettings (wname exComboWidget ++ "/currentIndex")
          (wstateOf exComboWidget).currentIndex ∧
        Settings.valueInt exOutOfRangeSettings (wname exComboWidget ++ "/currentIndex")
          (wstateOf exComboWidget).currentIndex < (wstateOf exComboWidget).count)) ∧
    ((∃ ws1 : WState,
        DefaultComboBoxHandler.load exComboWidget exOutOfRangeSettings = Except.ok ws1 ∧
        ws1.currentIndex = 0 ∧ 0 ≤ ws1.currentIndex ∧ ws1.currentIndex < ws1.count) ∧
      DefaultTabWidgetHandler.load exComboWidget exOutOfRangeSettings
        = Except.ok (wstateOf exComboWidget)) :=
  ⟨⟨by decide, by decide⟩,
   c3_out_of_range_index_load exComboWidget exOutOfRangeSettings
     (by decide) (by decide) (by decide)⟩

/-- C4 (corrected): the claim asserts that a failed serialization leaves the
    touched flag at its prior value. The code catches the error and writes
    nothing, but `save_custom_data` calls `mark_touched()` unconditionally, so a
    clean manager becomes touched even though nothing was written. -/
theorem c4_counterexample :
    exUnpicklablePayload.pickled = none ∧
    exManagerClean.touched = false ∧
    (saveCustomData exManagerClean "k" exUnpicklablePayload).settings
      = exManagerClean.settings ∧
    (saveCustomData exManagerClean "k" exUnpicklablePayload).touched = true :=
  ⟨rfl, rfl, rfl, rfl⟩

/-- C4 (amended): when serialization of the payload fails, `save_custom_data`
    catches the error and writes nothing to the store, but it still marks the
    state touched: the touched flag is set to true unconditionally (emitting the
    became-touched notification when the state was clean). -/
theorem c4_save_custom_data_failure (m : Manager) (key : String) (data : Payload)
    (hfail : data.pickled = none) :
    (saveCustomData m key data).settings = m.settings ∧
    (saveCustomData m key data).touched = true ∧
    (saveCustomData m key data).connected = m.connected ∧
    (saveCustomData m key data).skipped = m.skipped ∧
    (saveCustomData m key data).emitted = m.emitted ++ (if m.touched then [] else [true]) := by
  cases hm : m.touched with
  | true => simp [saveCustomData, saveCustomDataImpl, Settings.sync, markTouchedM, hfail, hm]
  | false => simp [saveCustomData, saveCustomDataImpl, Settings.sync, markTouchedM, hfail, hm]

/-- Witness for C4: the clean manager and the unpicklable payload. -/
theorem c4_witness :
    exUnpicklablePayload.pickled = none ∧
    ((saveCustomData exManagerClean "k" exUnpicklablePayload).settings
        = exManagerClean.settings ∧
      (saveCustomData exManagerClean "k" exUnpicklablePayload).touched = true ∧
      (saveCustomData exManagerClean "k" exUnpicklablePayload).connected
        = exManagerClean.connected ∧
      (saveCustomData exManagerClean "k" exUnpicklablePayload).skipped
        = exManagerClean.skipped ∧
      (saveCustomData exManagerClean "k" exUnpicklablePayload).emitted
        = exManagerClean.emitted ++ (if exManagerClean.touched then [] else [true])) :=
  ⟨rfl, c4_save_custom_data_failure exManagerClean "k" exUnpicklablePayload rfl⟩

/-- C5 (confirmed): when the resolved handler's operations raise, the exception is
    caught at the walker. For compare the node is reported as a difference (the
    walker returns true immediately). For save, load and connect the node step is
    a no-op and the traversal continues with the normal recursion decision; for
    collect no handler operation is involved and the node is collected normally.
    No handler exception aborts the traversal. -/
theorem c5_handler_exception_handling (conf : MConfig) (w : Widget) (st : WalkState)
    (s : Settings) (h : Handler)
    (hres : resolvedHandler conf w = some h)
    (hskip : shouldSkipWidget conf w = false)
    (hset : st.settings = some s) :
    (h.compare w s = Except.error () →
      processWidgetAndRecurse conf Op.compare w st = (w, st, true)) ∧
    (h.save w s = Except.error () →
      processWidgetAndRecurse conf Op.save w st =
        (if isKnownContainer w || (handlersGet conf.handlers (wcls w)).isNone
         then recurseStep conf Op.save w (wstateOf w) st else (w, st, false))) ∧
    (h.load w s = Except.error () →
      processWidgetAndRecurse conf Op.load w st =
        (if isKnownContainer w || (handlersGet conf.handlers (wcls w)).isNone
         then recurseStep conf Op.load w (wstateOf w) st else (w, st, false))) ∧
    (h.get_signals_to_monitor w = Except.error () →
      processWidgetAndRecurse conf Op.connect w st =
        (if isKnownContainer w || (handlersGet conf.handlers (wcls w)).isNone
         then recurseStep conf Op.connect w (wstateOf w) st else (w, st, false))) ∧
    processWidgetAndRecurse conf Op.collect w st =
      (if isKnownContainer w || (handlersGet conf.handlers (wcls w)).isNone
       then recurseStep conf Op.collect w (wstateOf w)
         { st with managed := st.managed.map (fun l => l ++ [widgetId w]) }
       else (w, { st with managed := st.managed.map (fun l => l ++ [widgetId w]) }, false)) := by
  refine ⟨?_, ?_, ?_, ?_, ?_⟩
  · intro hcomp
    have hpn : processNode conf Op.compare w st = (wstateOf w, st, true) := by
      simp [processNode, applyOp, hres, hset, hcomp]
    rw [processW_result_true conf Op.compare w st hskip (by rw [hpn]), hpn, setWState_self]
  · intro hsave
    have hpn : processNode conf Op.save w st = (wstateOf w, st, false) := by
      simp [processNode, applyOp, hres, hset, hsave]
    rw [processW_step conf Op.save w st hskip (by rw [hpn]), hpn, setWState_self]
  · intro hload
    have hpn : processNode conf Op.load w st = (wstateOf w, st, false) := by
      simp [processNode, applyOp, hres, hset, hload]
    rw [processW_step conf Op.load w st hskip (by rw [hpn]), hpn, setWState_self]
  · intro hsig
    have hcs : connectWidgetSignals conf w h st.connected = st.connected := by
      cases hany : st.connected.any (fun p => p.1 == widgetId w) with
      | true => simp [connectWidgetSignals, hany]
      | false => simp [connectWidgetSignals, hany, hskip, hsig]
    have hpn : processNode conf Op.connect w st = (wstateOf w, st, false) := by
      simp [processNode, applyOp, hres, hcs]
    rw [processW_step conf Op.connect w st hskip (by rw [hpn]), hpn, setWState_self]
  · have hpn : processNode conf Op.collect w st
        = (wstateOf w, { st with managed := st.managed.map (fun l => l ++ [widgetId w]) }, false) := by
      rcases st with ⟨sts, stc, stm⟩
      cases stm with
      | none => simp [processNode, applyOp, hres]
      | some l => simp [processNode, applyOp, hres]
    rw [processW_step conf Op.collect w st hskip (by rw [hpn]), hpn, setWState_self]

/-- Witness for C5: the registry maps `QCheckBox` to the always-throwing handler;
    a compare traversal at the named checkbox reports a difference. -/
theorem c5_witness :
    resolvedHandler exConfThrowing exLeafCheckBox = some ThrowingHandler ∧
    shouldSkipWidget exConfThrowing exLeafCheckBox = false ∧
    exSaveSt.settings = some exEmptySettings ∧
    processWidgetAndRecurse exConfThrowing Op.compare exLeafCheckBox exSaveSt
      = (exLeafCheckBox, exSaveSt, true) :=
  ⟨rfl, by decide, rfl,
   (c5_handler_exception_handling exConfThrowing exLeafCheckBox exSaveSt exEmptySettings
     ThrowingHandler rfl (by decide) rfl).1 rfl⟩

/-- C6 (confirmed): `load_from_file` on a store with an error status mutates no
    control (the widget tree is returned unchanged), tears down every signal
    subscription, resets the touched flag to clean, and leaves the default store,
    the skip set and the handler registry untouched. -/
theorem c6_load_from_file_error_is_noop (fs : String → Settings) (filepath : String)
    (m : Manager) (mw : WOption)
    (herr : (fs filepath).status ≠ SettingsStatus.noError) :
    (loadFromFile fs filepath m mw).2 = mw ∧
    (loadFromFile fs filepath m mw).1.connected = [] ∧
    (loadFromFile fs filepath m mw).1.touched = false ∧
    (loadFromFile fs filepath m mw).1.settings = m.settings ∧
    (loadFromFile fs filepath m mw).1.skipped = m.skipped ∧
    (loadFromFile fs filepath m mw).1.handlers = m.handlers ∧
    (loadFromFile fs filepath m mw).1.emitted
      = m.emitted ++ (if m.touched then [false] else []) := by
  have hb : ((fs filepath).status != SettingsStatus.noError) = true := by
    simp [bne_iff_ne, herr]
  cases hm : m.touched with
  | true => simp [loadFromFile, hb, disconnectAllWidgetSignals, markUntouchedM, hm]
  | false => simp [loadFromFile, hb, disconnectAllWidgetSignals, markUntouchedM, hm]

/-- Witness for C6: loading from a path whose store reports an access error, on a
    touched manager with one live subscription. -/
theorem c6_witness :
    (exFsBad "settings.ini").status ≠ SettingsStatus.noError ∧
    ((loadFromFile exFsBad "settings.ini" exManagerTouched (WOption.some exRootC1)).2
        = WOption.some exRootC1 ∧
      (loadFromFile exFsBad "settings.ini" exManagerTouched (WOption.some exRootC1)).1.connected
        = [] ∧
      (loadFromFile exFsBad "settings.ini" exManagerTouched (WOption.some exRootC1)).1.touched
        = false ∧
      (loadFromFile exFsBad "settings.ini" exManagerTouched (WOption.some exRootC1)).1.settings
        = exManagerTouched.settings ∧
      (loadFromFile exFsBad "settings.ini" exManagerTouched (WOption.some exRootC1)).1.skipped
        = exManagerTouched.skipped ∧
      (loadFromFile exFsBad "settings.ini" exManagerTouched (WOption.some exRootC1)).1.handlers
        = exManagerTouched.handlers ∧
      (loadFromFile exFsBad "settings.ini" exManagerTouched (WOption.some exRootC1)).1.emitted
        = exManagerTouched.emitted ++ (if exManagerTouched.touched then [false] else [])) :=
  ⟨by decide,
   c6_load_from_file_error_is_noop exFsBad "settings.ini" exManagerTouched
     (WOption.some exRootC1) (by decide)⟩

/-- Helper: a change notification received while already touched changes nothing. -/
theorem onWidgetChanged_of_touched (m : Manager) (w : Widget) (h : m.touched = true) :
    onWidgetChanged m w = m := by
  cases hs : shouldSkipWidget (mconfigOf m) w with
  | true => simp [onWidgetChanged, hs]
  | false => simp [onWidgetChanged, hs, markTouchedM, h]

/-- Helper: any number of change notifications while already touched change
    nothing. -/
theorem iterate_onWidgetChanged_of_touched (k : Nat) (m : Manager) (w : Widget)
    (h : m.touched = true) :
    (fun mm => onWidgetChanged mm w)^[k] m = m := by
  induction k with
  | zero => rfl
  | succ n ih =>
    rw [Function.iterate_succ_apply]
    rw [onWidgetChanged_of_touched m w h]
    exact ih

/-- C8 (confirmed): the touched-state transitions are edge-triggered and
    idempotent. `mark_touched` from clean emits exactly one became-touched
    notification and from touched emits nothing; `mark_untouched` dually. Any
    number `n ≥ 1` of change notifications from a monitored, non-skipped, named
    control starting in the clean state emits the became-touched notification
    exactly once. -/
theorem c8_touched_edge_triggered (m : Manager) (w : Widget) (n : Nat)
    (hskip : shouldSkipWidget (mconfigOf m) w = false)
    (hn : 1 ≤ n)
    (hclean : m.touched = false) :
    markTouchedM m = { m with touched := true, emitted := m.emitted ++ [true] } ∧
    (∀ m2 : Manager, m2.touched = true → markTouchedM m2 = m2) ∧
    (∀ m2 : Manager, m2.touched = true →
      markUntouchedM m2 = { m2 with touched := false, emitted := m2.emitted ++ [false] }) ∧
    markUntouchedM m = m ∧
    (fun mm => onWidgetChanged mm w)^[n] m
      = { m with touched := true, emitted := m.emitted ++ [true] } := by
  refine ⟨by simp [markTouchedM, hclean], ?_, ?_, by simp [markUntouchedM, hclean], ?_⟩
  · intro m2 h2
    simp [markTouchedM, h2]
  · intro m2 h2
    simp [markUntouchedM, h2]
  · obtain ⟨k, rfl⟩ : ∃ k, n = k + 1 := ⟨n - 1, by omega⟩
    rw [Function.iterate_succ_apply]
    have h1 : onWidgetChanged m w
        = { m with touched := true, emitted := m.emitted ++ [true] } := by
      simp [onWidgetChanged, hskip, markTouchedM, hclean]
    rw [h1]
    exact iterate_onWidgetChanged_of_touched k _ w rfl

/-- Witness for C8: three change notifications from the named checkbox on the
    clean manager emit exactly one became-touched notification. -/
theorem c8_witness :
    shouldSkipWidget (mconfigOf exManagerClean) exLeafCheckBox = false ∧
    exManagerClean.touched = false ∧
    (fun mm => onWidgetChanged mm exLeafCheckBox)^[3] exManagerClean
      = { exManagerClean with touched := true, emitted := exManagerClean.emitted ++ [true] } :=
  ⟨by decide, rfl,
   (c8_touched_edge_triggered exManagerClean exLeafCheckBox 3 (by decide) (by decide)
     rfl).2.2.2.2⟩

/-- Helper: the compare run of `has_unsaved_changes` leaves the manager and the
    widget tree unchanged. -/
theorem compareAgainst_frame (m : Manager) (mw : WOption) (s : Settings) (isDefault : Bool)
    (hs : isDefault = true → s = m.settings) :
    (compareAgainst m mw s isDefault).1 = m ∧ (compareAgainst m mw s isDefault).2.1 = mw := by
  cases mw with
  | none => exact ⟨rfl, rfl⟩
  | some w =>
    obtain ⟨f1, f2⟩ := processW_compare_frame (mconfigOf m) w
      { settings := some s, connected := m.connected, managed := none }
    cases isDefault with
    | true =>
      rw [hs rfl] at f1 f2 ⊢
      simp [compareAgainst, f1, f2]
    | false =>
      simp [compareAgainst, f1, f2]

/-- C10 (confirmed): `has_unsaved_changes` with the built-in handlers is a
    read-only query for every source (absent, path, or handle): the manager state
    (touched flag, subscription table, skip set, default store, registry) and
    every control's value are unchanged. -/
theorem c10_has_unsaved_changes_readonly (fs : String → Settings) (m : Manager)
    (mw : WOption) (source : Option CompareSource) (offscreen : Bool)
    (hh : m.handlers = defaultHandlers offscreen) :
    (hasUnsavedChanges fs m mw source).1 = m ∧
    (hasUnsavedChanges fs m mw source).2.1 = mw := by
  cases source with
  | none =>
    simpa [hasUnsavedChanges] using compareAgainst_frame m mw m.settings true (fun _ => rfl)
  | some src =>
    cases src with
    | file p =>
      cases hst : ((fs p).status != SettingsStatus.noError) with
      | true => simp [hasUnsavedChanges, hst]
      | false =>
        simpa [hasUnsavedChanges, hst] using
          compareAgainst_frame m mw (fs p) false (fun hcon => Bool.noConfusion hcon)
    | handle s =>
      simpa [hasUnsavedChanges] using
        compareAgainst_frame m mw s false (fun hcon => Bool.noConfusion hcon)

/-- Witness for C10: querying the clean manager against its default store leaves
    the manager and the tree unchanged. -/
theorem c10_witness :
    exManagerClean.handlers = defaultHandlers false ∧
    (hasUnsavedChanges exFsBad exManagerClean (WOption.some exRootC1) none).1
      = exManagerClean ∧
    (hasUnsavedChanges exFsBad exManagerClean (WOption.some exRootC1) none).2.1
      = WOption.some exRootC1 :=
  ⟨rfl,
   (c10_has_unsaved_changes_readonly exFsBad exManagerClean (WOption.some exRootC1)
     none false rfl).1,
   (c10_has_unsaved_changes_readonly exFsBad exManagerClean (WOption.some exRootC1)
     none false rfl).2⟩

/-- Witness for C9: the unnamed checkbox is excluded from a save traversal, from
    signal connection, and from touching the state. -/
theorem c9_witness :
    wname exUnnamedCheckBox = "" ∧
    processWidgetAndRecurse exConfDefault Op.save exUnnamedCheckBox exSaveSt
      = (exUnnamedCheckBox, exSaveSt, false) ∧
    connectWidgetSignals exConfDefault exUnnamedCheckBox DefaultCheckBoxHandler [] = [] ∧
    onWidgetChanged exManagerClean exUnnamedCheckBox = exManagerClean :=
  ⟨rfl,
   c9_unnamed_widget_excluded exConfDefault Op.save exUnnamedCheckBox exSaveSt
     DefaultCheckBoxHandler [] exManagerClean rfl⟩

end PSM
